import Mathlib

/-!
Shallow embedding of the `project_reporter` package.

Part 1 models `project_reporter/project.py`: the cell values of a pandas
DataFrame, the generic table checks, the domain checks (`check_tasks_df`,
`check_workers_df`, `check_timesheet_df`) and `Project.__init__` / `Project.copy`.

Part 2 models `project_reporter/main.py` (`compute_costs`, `summarize`) over a
typed view of a validated project's tables.

Modelling conventions:
- Python numbers (int and float) are modelled as `ℚ` inside `Value.vFloat`;
  Python compares `40000.0 == 40000` as equal across int/float, which rational
  equality reproduces.  Float NaN never arises in the checked columns because
  the no-NaN check runs first, so `ℚ` is adequate.
- `None` / missing cells are `Value.vNone`.
- Python exceptions are modelled by `Except` with an explicit error type;
  distinct exception classes (`voluptuous.Invalid`, `NameError`,
  `AttributeError`, `TypeError`, `IndexError`) are distinct constructors.
-/

/-- Decidable equality of `Except` results, so that concrete runs of the
embedded code can be checked by `decide`. -/
instance {ε α : Type} [DecidableEq ε] [DecidableEq α] : DecidableEq (Except ε α) := fun a b =>
  match a, b with
  | .error x, .error y =>
    decidable_of_iff (x = y) ⟨fun h => by rw [h], fun h => by cases h; rfl⟩
  | .error _, .ok _ => isFalse (fun h => Except.noConfusion h)
  | .ok _, .error _ => isFalse (fun h => Except.noConfusion h)
  | .ok x, .ok y =>
    decidable_of_iff (x = y) ⟨fun h => by rw [h], fun h => by cases h; rfl⟩

/-- A pandas cell value: a string, a number (Python int or float, modelled as
`ℚ`), or a missing value (`None`/NaN). -/
inductive Value where
  | vStr : String → Value
  | vFloat : ℚ → Value
  | vNone : Value
  deriving DecidableEq

/-- Whether a cell value is a Python float/number, as tested by
`isinstance(v, float)` on a numeric column. -/
def Value.isFloat : Value → Bool
  | .vFloat _ => true
  | _ => false

/-- Errors raised by the validation code in `project.py`.  The `vt.Invalid`
exceptions are distinguished by which check raised them; `nameError`,
`attributeError` and `typeError` model the corresponding Python exceptions
raised by bugs in the source. -/
inductive VErr where
  | emptyDf
  | badHeader
  | nansFound
  | nonNumerical (v : Value)
  | budgetMismatch (b budget : Value)
  | unknownTasks (d : Finset Value)
  | unknownWorkers (d : Finset Value)
  | notStr
  | notPos
  | nameError
  | attributeError
  | typeError
  deriving DecidableEq

/-- A pandas DataFrame: a list of column labels and a list of rows, each row a
list of cells positionally aligned with `columns`. -/
structure DataFrame where
  columns : List String
  rows : List (List Value)
  deriving DecidableEq

/-- Column access `f[c]`: the list of cells of column `c` in row order. -/
def DataFrame.col (f : DataFrame) (c : String) : List Value :=
  match f.columns.findIdx? (· == c) with
  | some i => f.rows.map (fun r => r.getD i Value.vNone)
  | none => []

/-- `check_df_instance = vt.Schema(pd.DataFrame)`: in this embedding the input
is already typed as a DataFrame, so the isinstance check always passes. -/
def check_df_instance (f : DataFrame) : Except VErr DataFrame := .ok f

/-- `df_nonempty`: `f.empty` is true when either axis has length zero.
Defined in the source (as is `check_df_nonempty`) but never called. -/
def df_nonempty (f : DataFrame) : Except VErr DataFrame :=
  if f.rows.isEmpty || f.columns.isEmpty then .error .emptyDf else .ok f

/-- `check_df_header`: the column-name set must equal the expected set. -/
def check_df_header (f : DataFrame) (expect_cols : List String) : Except VErr DataFrame :=
  if f.columns.toFinset = expect_cols.toFinset then .ok f else .error .badHeader

/-- `df_no_nans`: fails if any cell of any column is null. -/
def df_no_nans (f : DataFrame) : Except VErr DataFrame :=
  if f.columns.all (fun c => (f.col c).all (fun v => v != Value.vNone)) then .ok f
  else .error .nansFound

/-- `check_df`: instance check, then header check, then no-NaN check.
Note the source composes only these three; `df_nonempty` is not among them. -/
def check_df (f : DataFrame) (expect_cols : List String) : Except VErr DataFrame := do
  let f ← check_df_instance f
  let f ← check_df_header f expect_cols
  let f ← df_no_nans f
  .ok f

/-- The first value of a column that is not a float, if any: the loop
`for v in f[col].values: if not isinstance(v, float): raise` stops at the
first offender. -/
def firstNonFloat (vs : List Value) : Option Value :=
  vs.find? (fun v => !v.isFloat)

/-- Sum of a numeric column, `f[col].sum()`.  Only evaluated by the source
after every cell passed the float check, so the default `0` for non-floats is
never exercised there. -/
def sumFloats (vs : List Value) : ℚ :=
  (vs.map (fun v => match v with | .vFloat q => q | _ => 0)).sum

/-- `check_str = vt.Schema(str)`: accepts exactly the string instances
(the empty string included) and rejects everything else. -/
def check_str (v : Value) : Except VErr String :=
  match v with
  | .vStr s => .ok s
  | _ => .error .notStr

/-- `check_pos = vt.Schema(vt.Range(min=0))`: accepts a number `≥ 0`; a
negative number or a non-number raises `Invalid`. -/
def check_pos (v : Value) : Except VErr ℚ :=
  match v with
  | .vFloat q => if 0 ≤ q then .ok q else .error .notPos
  | _ => .error .notPos

/-- `check_tasks_df`: generic checks with header `{task, budget}`, then the
float check on the budget column, then the exact equality test of the budget
sum against the declared project budget (`if b != budget: raise`). -/
def check_tasks_df (f : DataFrame) (budget : Value) : Except VErr DataFrame :=
  match check_df f ["task", "budget"] with
  | .error e => .error e
  | .ok f =>
    match firstNonFloat (f.col "budget") with
    | some v => .error (.nonNumerical v)
    | none =>
      let b : Value := .vFloat (sumFloats (f.col "budget"))
      if b = budget then .ok f else .error (.budgetMismatch b budget)

/-- `check_workers_df`: generic checks with header `{worker, rate}`, then the
float check on the rate column. -/
def check_workers_df (f : DataFrame) : Except VErr DataFrame :=
  match check_df f ["worker", "rate"] with
  | .error e => .error e
  | .ok f =>
    match firstNonFloat (f.col "rate") with
    | some v => .error (.nonNumerical v)
    | none => .ok f

/-- `check_timesheet_df`.  The source runs `f = timesheet_df.copy()` BEFORE
the `if f is None: return f` test, so an absent timesheet raises
`AttributeError` (`None` has no attribute `copy`) and the `None` branch is
unreachable.  On a present table: generic checks with header
`{date, task, worker, duration}`; then the float check on `duration`, whose
error branch formats its message with the undefined variable `name`, so Python
raises `NameError` there instead of `vt.Invalid`; then the set difference of
timesheet tasks minus table tasks, then likewise for workers. -/
def check_timesheet_df (timesheet_df : Option DataFrame) (tasks_df workers_df : DataFrame) :
    Except VErr (Option DataFrame) :=
  match timesheet_df with
  | none => .error .attributeError
  | some f0 =>
    match check_df f0 ["date", "task", "worker", "duration"] with
    | .error e => .error e
    | .ok f =>
      match firstNonFloat (f.col "duration") with
      | some _ => .error .nameError
      | none =>
        let D := (f.col "task").toFinset \ (tasks_df.col "task").toFinset
        if D ≠ ∅ then .error (.unknownTasks D)
        else
          let D2 := (f.col "worker").toFinset \ (workers_df.col "worker").toFinset
          if D2 ≠ ∅ then .error (.unknownWorkers D2)
          else .ok (some f)

/-- A validated `Project` instance: the attributes set by a successful
`Project.__init__`. -/
structure Project where
  name : String
  description : String
  client : String
  budget : ℚ
  currency : String
  tasks_df : DataFrame
  workers_df : DataFrame
  timesheet_df : Option DataFrame
  deriving DecidableEq

/-- `Project.__init__`: the checks run in source order — name, description,
client, budget, currency, tasks, workers, timesheet — and the first failure
aborts construction.  `check_tasks_df` and `check_timesheet_df` receive the
raw `budget` / `tasks_df` / `workers_df` arguments, as in the source. -/
def Project.init (name description client budget currency : Value)
    (tasks_df workers_df : DataFrame) (timesheet_df : Option DataFrame) :
    Except VErr Project := do
  let n ← check_str name
  let d ← check_str description
  let c ← check_str client
  let b ← check_pos budget
  let cur ← check_str currency
  let t ← check_tasks_df tasks_df budget
  let w ← check_workers_df workers_df
  let ts ← check_timesheet_df timesheet_df tasks_df workers_df
  .ok ⟨n, d, c, b, cur, t, w, ts⟩

/-- Number of required positional parameters of `Project.__init__`
(`self` excluded): name, description, client, budget, currency, tasks_df,
workers_df.  Only `timesheet_df` has a default. -/
def projectInitRequiredParams : Nat := 7

/-- `Project.copy` first evaluates `Project()`, a call supplying zero of the
seven required positional arguments of `__init__`, which Python rejects with
`TypeError` before the attribute-copying loop can run.  Were the arity zero,
the loop would copy every attribute onto the fresh instance. -/
def Project.copy (p : Project) : Except VErr Project :=
  if projectInitRequiredParams = 0 then .ok p else .error .typeError

/-!
Part 2: `project_reporter/main.py`, over a typed view of a validated project.

A validated project's tables have exactly the columns and value types enforced
by Part 1 (task/budget, worker/rate, date/task/worker/duration, numeric
columns all floats), so they are represented here as lists of typed rows.
Dates are modelled as integers (e.g. an ordinal day number).
-/

/-- A row of a validated tasks table. -/
structure TaskRow where
  task : String
  budget : ℚ
  deriving DecidableEq

/-- A row of a validated workers table. -/
structure WorkerRow where
  worker : String
  rate : ℚ
  deriving DecidableEq

/-- A row of a validated timesheet: one dated work entry. -/
structure EntryRow where
  date : Int
  task : String
  worker : String
  duration : ℚ
  deriving DecidableEq

/-- A row of the joined table produced by `compute_costs`: a timesheet entry
merged with its task's budget (renamed `task_budget`) and its worker's rate,
plus the three derived columns `cost`, `cost/task_budget`,
`cost/project_budget`. -/
structure CostRow where
  date : Int
  task : String
  worker : String
  duration : ℚ
  task_budget : ℚ
  rate : ℚ
  cost : ℚ
  costOverTaskBudget : ℚ
  costOverProjectBudget : ℚ
  deriving DecidableEq

/-- The typed view of a validated project consumed by `main.py`: the functions
there read only `budget`, `tasks_df`, `workers_df` and `timesheet_df`. -/
structure ProjectT where
  budget : ℚ
  tasks_df : List TaskRow
  workers_df : List WorkerRow
  timesheet_df : Option (List EntryRow)
  deriving DecidableEq

/-- Errors raised by `main.py`: the explicit `ValueError` guarding a missing
timesheet, and the `IndexError` that `.iat[0]` raises on an empty frame. -/
inductive MErr where
  | missingTimesheet
  | indexError
  deriving DecidableEq

/-- One output row of the double merge, for entry `e` matched with task `t`
and worker `w`, with the derived columns of `compute_costs`. -/
def costRowOf (p : ProjectT) (e : EntryRow) (t : TaskRow) (w : WorkerRow) : CostRow :=
  { date := e.date, task := e.task, worker := e.worker, duration := e.duration,
    task_budget := t.budget, rate := w.rate,
    cost := e.duration * w.rate,
    costOverTaskBudget := e.duration * w.rate / t.budget,
    costOverProjectBudget := e.duration * w.rate / p.budget }

/-- The double inner merge
`timesheet_df.merge(tasks_df).merge(workers_df)`: the common column of the
first merge is `task`, of the second `worker`.  A pandas inner merge preserves
the order of the left keys, with right-side matches in right-table order,
which the nested traversal below reproduces. -/
def joinRows (p : ProjectT) (ts : List EntryRow) : List CostRow :=
  ts.flatMap (fun e =>
    (p.tasks_df.filter (fun t => t.task == e.task)).flatMap (fun t =>
      (p.workers_df.filter (fun w => w.worker == e.worker)).map (fun w =>
        costRowOf p e t w)))

/-- `compute_costs`: raises `ValueError` when the timesheet is absent,
otherwise merges in rates and budgets and computes the derived columns.
The `astype('category')` lines do not change any cell value and the column
rename is reflected in the `task_budget` field name. -/
def compute_costs (p : ProjectT) : Except MErr (List CostRow) :=
  match p.timesheet_df with
  | none => .error .missingTimesheet
  | some ts => .ok (joinRows p ts)

/-- The series built by the inner function `my_agg` for one group: its index
is `[duration, rate, cost, task_budget]`. -/
structure AggRow where
  duration : ℚ
  rate : ℚ
  cost : ℚ
  task_budget : ℚ
  deriving DecidableEq

/-- The aggregate of one group, as computed by the inner function `my_agg`:
summed duration, first row's rate (`.iat[0]`), summed cost, first row's task
budget.  On an empty group `.iat[0]` raises `IndexError`, modelled as
`none`. -/
def my_agg : List CostRow → Option AggRow
  | [] => none
  | g0 :: gs =>
    some { duration := ((g0 :: gs).map CostRow.duration).sum,
           rate := g0.rate,
           cost := ((g0 :: gs).map CostRow.cost).sum,
           task_budget := g0.task_budget }

/-- A grouping key value: the optional time-bucket label, the optional task
name, the optional worker name — in the fixed order the source builds `cols`
(`TimeGrouper` inserted first, then `task`, then `worker`).  A component is
`none` when the corresponding grouping dimension is not requested. -/
abbrev GKey := Option Int × Option String × Option String

/-- A calendar frequency for `pd.TimeGrouper(freq, label='left')`, abstracted
as the function sending a date to the left-label of its bucket. -/
structure Freq where
  bucket : Int → Int

/-- The grouping key of a joined row under a given configuration. -/
def groupKey (by_task by_worker : Bool) (freq : Option Freq) (r : CostRow) : GKey :=
  (freq.map (fun fr => fr.bucket r.date),
   if by_task then some r.task else none,
   if by_worker then some r.worker else none)

/-- Boolean lexicographic comparison of optional values (`none` first). -/
def optionLt {α : Type} (lt : α → α → Bool) : Option α → Option α → Bool
  | none, none => false
  | none, some _ => true
  | some _, none => false
  | some a, some b => lt a b

/-- Lexicographic order on grouping keys: bucket, then task, then worker —
pandas sorts group keys ascending in this column order. -/
def gkeyLe (a b : GKey) : Bool :=
  if a.1 = b.1 then
    if a.2.1 = b.2.1 then
      a.2.2 = b.2.2 || optionLt (fun x y => decide (x < y)) a.2.2 b.2.2
    else optionLt (fun x y : String => decide (x < y)) a.2.1 b.2.1
  else optionLt (fun x y : Int => decide (x < y)) a.1 b.1

/-- Insertion into a sorted list, for the key sort below. -/
def insertSorted (k : GKey) : List GKey → List GKey
  | [] => [k]
  | k2 :: ks => if gkeyLe k k2 then k :: k2 :: ks else k2 :: insertSorted k ks

/-- Insertion sort of the group keys (pandas `groupby` sorts keys). -/
def sortKeys (l : List GKey) : List GKey :=
  l.foldr insertSorted []

/-- `f.groupby(cols).apply(my_agg).reset_index()`: the observed key
combinations in ascending order, each paired with the aggregate of its group
(the rows of `f` with that key, in `f` order).  An observed key's group is
nonempty, so `my_agg` never returns `none` here and `filterMap` drops
nothing. -/
def groupbyApply (f : List CostRow) (key : CostRow → GKey) : List (GKey × AggRow) :=
  (sortKeys ((f.map key).dedup)).filterMap
    (fun k => (my_agg (f.filter (fun r => key r == k))).map (fun a => (k, a)))

/-- One output row of `summarize`: the grouping-key columns restored by
`reset_index` (absent dimensions are `none`), the aggregated columns, and the
shaped ratio columns.  A `none` in `rate`, `task_budget` or
`costOverTaskBudget` models that column being absent from the output frame. -/
structure SummaryRow where
  dateBucket : Option Int
  task : Option String
  worker : Option String
  duration : ℚ
  rate : Option ℚ
  cost : ℚ
  task_budget : Option ℚ
  costOverTaskBudget : Option ℚ
  costOverProjectBudget : ℚ
  deriving DecidableEq

/-- Post-aggregation column shaping of `summarize` (lines 65–73 of
`main.py`): if `by_task`, append `cost/task_budget = cost/task_budget` and
`cost/project_budget = cost/project.budget`; else drop `task_budget` and
append only `cost/project_budget`; if not `by_worker`, drop `rate`. -/
def mkSummaryRow (p : ProjectT) (by_task by_worker : Bool) (ka : GKey × AggRow) : SummaryRow :=
  { dateBucket := ka.1.1,
    task := ka.1.2.1,
    worker := ka.1.2.2,
    duration := ka.2.duration,
    rate := if by_worker then some ka.2.rate else none,
    cost := ka.2.cost,
    task_budget := if by_task then some ka.2.task_budget else none,
    costOverTaskBudget := if by_task then some (ka.2.cost / ka.2.task_budget) else none,
    costOverProjectBudget := ka.2.cost / p.budget }

/-- `summarize`: raises `ValueError` on an absent timesheet, joins via
`compute_costs`, then either aggregates the whole frame in one row (no
frequency and no grouping columns — where `my_agg(f)` hits `IndexError` on an
empty frame) or groups by the requested keys, and finally shapes the
columns. -/
def summarize (p : ProjectT) (by_task by_worker : Bool) (freq : Option Freq) :
    Except MErr (List SummaryRow) :=
  if p.timesheet_df = none then .error .missingTimesheet
  else
    match compute_costs p with
    | .error e => .error e
    | .ok f =>
      if freq.isNone && !by_task && !by_worker then
        match my_agg f with
        | none => .error .indexError
        | some a => .ok [mkSummaryRow p by_task by_worker ((none, none, none), a)]
      else
        .ok ((groupbyApply f (groupKey by_task by_worker freq)).map
              (mkSummaryRow p by_task by_worker))

/-!
Helper lemmas about list joins under unique keys.
-/

/-- In a list whose key projection is duplicate-free, filtering on the key of
a member yields exactly that member. -/
theorem filter_key_singleton {α : Type} (f : α → String) (l : List α)
    (hnd : (l.map f).Nodup) (a : α) (ha : a ∈ l) (s : String) (hs : f a = s) :
    l.filter (fun x => f x == s) = [a] := by
  induction l with
  | nil => cases ha
  | cons b t ih =>
    simp only [List.map_cons, List.nodup_cons] at hnd
    obtain ⟨hb, hnd2⟩ := hnd
    rcases List.mem_cons.mp ha with rfl | hat
    · have hnil : t.filter (fun x => f x == s) = [] := by
        rw [List.filter_eq_nil_iff]
        intro x hx
        simp only [beq_iff_eq]
        intro hfx
        exact hb (hs ▸ hfx ▸ List.mem_map_of_mem f hx)
      simp [List.filter_cons, hs, hnil]
    · have hbs : (f b == s) = false := by
        simp only [beq_eq_false_iff_ne]
        intro h
        exact hb (h ▸ hs ▸ List.mem_map_of_mem f hat)
      rw [List.filter_cons_of_neg (by simp [hbs])]
      exact ih hnd2 hat

/-- Two members of a list with duplicate-free key projection that share a key
are equal. -/
theorem nodup_key_eq {α : Type} (f : α → String) (l : List α)
    (hnd : (l.map f).Nodup) (a b : α) (ha : a ∈ l) (hb : b ∈ l) (hf : f a = f b) : a = b := by
  have h1 := filter_key_singleton f l hnd a ha (f a) rfl
  have h2 : b ∈ l.filter (fun x => f x == f a) :=
    List.mem_filter.mpr ⟨hb, by simp [hf]⟩
  rw [h1] at h2
  exact (List.mem_singleton.mp h2).symm

/-- Characterization of the double merge on a validated project: with
duplicate-free task and worker names and every entry referencing an existing
task and worker, the join yields exactly one row per entry, in timesheet
order, carrying the matched rate and task budget and the derived columns. -/
theorem joinRows_spec (p : ProjectT)
    (hT : (p.tasks_df.map TaskRow.task).Nodup)
    (hW : (p.workers_df.map WorkerRow.worker).Nodup) :
    ∀ ts : List EntryRow,
      (∀ e ∈ ts, (∃ t ∈ p.tasks_df, t.task = e.task) ∧
                 (∃ w ∈ p.workers_df, w.worker = e.worker)) →
      (joinRows p ts).map (fun r => (r.date, r.task, r.worker, r.duration))
        = ts.map (fun e => (e.date, e.task, e.worker, e.duration)) ∧
      ∀ r ∈ joinRows p ts,
        (∀ w ∈ p.workers_df, w.worker = r.worker → r.rate = w.rate) ∧
        (∀ t ∈ p.tasks_df, t.task = r.task → r.task_budget = t.budget) ∧
        r.cost = r.duration * r.rate ∧
        r.costOverTaskBudget = r.cost / r.task_budget ∧
        r.costOverProjectBudget = r.cost / p.budget := by
  intro ts
  induction ts with
  | nil =>
    intro _
    exact ⟨rfl, by intro r hr; simp [joinRows] at hr⟩
  | cons e rest ih =>
    intro hm
    obtain ⟨⟨t0, ht0, ht0e⟩, ⟨w0, hw0, hw0e⟩⟩ := hm e (List.mem_cons_self e rest)
    have hft : p.tasks_df.filter (fun t => t.task == e.task) = [t0] :=
      filter_key_singleton TaskRow.task p.tasks_df hT t0 ht0 e.task ht0e
    have hfw : p.workers_df.filter (fun w => w.worker == e.worker) = [w0] :=
      filter_key_singleton WorkerRow.worker p.workers_df hW w0 hw0 e.worker hw0e
    have hstep : joinRows p (e :: rest) = costRowOf p e t0 w0 :: joinRows p rest := by
      simp [joinRows, hft, hfw]
    obtain ⟨ihproj, ihprops⟩ := ih (fun x hx => hm x (List.mem_cons_of_mem e hx))
    constructor
    · rw [hstep, List.map_cons, ihproj]
      rfl
    · intro r hr
      rw [hstep] at hr
      rcases List.mem_cons.mp hr with rfl | hr2
    
      · refine ⟨?_, ?_, rfl, rfl, rfl⟩
        · intro w hw hwe
          have hww : w = w0 :=
            nodup_key_eq WorkerRow.worker p.workers_df hW w w0 hw hw0 (by rw [hwe]; exact hw0e.symm)
          rw [hww]; rfl
        · intro t ht hte
          have htt : t = t0 :=
            nodup_key_eq TaskRow.task p.tasks_df hT t t0 ht ht0 (by rw [hte]; exact ht0e.symm)
          rw [htt]; rfl
      · exact ihprops r hr2

/-- Helper: a bind over `Except` returning `ok` factors through an `ok`
intermediate result. -/
theorem exceptBind_ok {ε α β : Type} (x : Except ε α) (f : α → Except ε β) (b : β)
    (h : (x >>= f) = .ok b) : ∃ a, x = .ok a ∧ f a = .ok b := by
  cases x with
  | error e => simp [Bind.bind, Except.bind] at h
  | ok a => exact ⟨a, rfl, h⟩

/-- A valid one-task table (budget sum 10) used for the C1 scenario. -/
def tasksC1 : DataFrame := ⟨["task", "budget"], [[Value.vStr "Inception", Value.vFloat 10]]⟩

/-- A valid one-worker table used for the C1 scenario. -/
def workersC1 : DataFrame := ⟨["worker", "rate"], [[Value.vStr "Ann", Value.vFloat 200]]⟩

/-- C1: the claim says an absent timesheet passes validation unchanged and a
`Project` can be constructed with `timesheet_df = None`.  The code disagrees:
`check_timesheet_df` evaluates `timesheet_df.copy()` before its `None` test,
so validation raises `AttributeError` and construction with an absent
timesheet always fails, even when every other validator passes — contradicting
the class docstring (`timesheet_df` "optional; defaults to None") and the
`is None` guards in `main.py`.  The theorem evaluates the code at the failing
input. -/
theorem c1_absent_timesheet_raises :
    check_timesheet_df none tasksC1 workersC1 = .error .attributeError ∧
    Project.init (Value.vStr "Project A") (Value.vStr "d") (Value.vStr "c")
      (Value.vFloat 10) (Value.vStr "NZD") tasksC1 workersC1 none =
      .error .attributeError := by
  exact ⟨rfl, by with_unfolding_all rfl⟩

/-- C7: on a project whose timesheet is absent, `compute_costs` raises the
missing-timesheet `ValueError`, and `summarize` raises the same error for
every combination of `by_task`, `by_worker` and `freq`, with no partial
result. -/
theorem c7_missing_timesheet (p : ProjectT) (h : p.timesheet_df = none)
    (bt bw : Bool) (fr : Option Freq) :
    compute_costs p = .error .missingTimesheet ∧
    summarize p bt bw fr = .error .missingTimesheet := by
  constructor
  · simp [compute_costs, h]
  · simp [summarize, h]

/-- Concrete project without a timesheet for the C7 witness. -/
def projC7 : ProjectT := ⟨5, [⟨"t", 5⟩], [⟨"w", 1⟩], none⟩

/-- Witness for C7 at a concrete project and grouping configuration. -/
theorem c7_missing_timesheet_witness :
    compute_costs projC7 = .error .missingTimesheet ∧
    summarize projC7 true true none = .error .missingTimesheet :=
  c7_missing_timesheet projC7 rfl true true none

/-- C10: `Project.copy` evaluates `Project()`, a call with zero of the seven
required positional arguments of `__init__`, so Python raises `TypeError` and
`copy` never returns a copy, for every project. -/
theorem c10_copy_always_fails (p : Project) :
    Project.copy p = .error .typeError ∧ ∀ q, Project.copy p ≠ .ok q := by
  constructor
  · simp [Project.copy, projectInitRequiredParams]
  · intro q hq
    simp [Project.copy, projectInitRequiredParams] at hq

/-- C9: on a timesheet table that passes the generic checks but has a
non-float value in the duration column, validation does not raise the
documented non-numerical `Invalid`: the error branch formats its message with
the undefined variable `name`, so it fails with `NameError` instead. -/
theorem c9_nonfloat_duration_nameerror (f tasks workers : DataFrame)
    (hdf : check_df f ["date", "task", "worker", "duration"] = .ok f)
    (v : Value) (hv : firstNonFloat (f.col "duration") = some v) :
    check_timesheet_df (some f) tasks workers = .error .nameError ∧
    ∀ u, check_timesheet_df (some f) tasks workers ≠ .error (.nonNumerical u) := by
  have h1 : check_timesheet_df (some f) tasks workers = .error .nameError := by
    simp only [check_timesheet_df, hdf, hv]
  exact ⟨h1, fun u => by rw [h1]; simp⟩

/-- Timesheet with a string in the duration column, for the C9 witness. -/
def tsC9 : DataFrame :=
  ⟨["date", "task", "worker", "duration"],
   [[Value.vFloat 1, Value.vStr "t", Value.vStr "w", Value.vStr "seven"]]⟩

/-- Tasks table for the C9 witness. -/
def tasksC9 : DataFrame := ⟨["task", "budget"], [[Value.vStr "t", Value.vFloat 3]]⟩

/-- Workers table for the C9 witness. -/
def workersC9 : DataFrame := ⟨["worker", "rate"], [[Value.vStr "w", Value.vFloat 2]]⟩

/-- Witness for C9 at a concrete timesheet with a non-float duration. -/
theorem c9_nonfloat_duration_nameerror_witness :
    check_timesheet_df (some tsC9) tasksC9 workersC9 = .error .nameError ∧
    ∀ u, check_timesheet_df (some tsC9) tasksC9 workersC9 ≠ .error (.nonNumerical u) :=
  c9_nonfloat_duration_nameerror tsC9 tasksC9 workersC9 (by decide)
    (Value.vStr "seven") (by decide)

/-- C2: for a tasks table passing the generic checks (numeric budget column
included), the budget check of `check_tasks_df` succeeds exactly when the
budget-column sum equals the declared budget, and any discrepancy — however
small — makes the check, and `Project` construction with otherwise valid
scalar fields, fail with the budget-mismatch error stating the computed sum
and the declared budget. -/
theorem c2_budget_mismatch (f : DataFrame) (B : ℚ) (workers_df : DataFrame)
    (timesheet_df : Option DataFrame) (nm ds cl cur : String)
    (hdf : check_df f ["task", "budget"] = .ok f)
    (hnum : firstNonFloat (f.col "budget") = none)
    (hB : 0 ≤ B) :
    (check_tasks_df f (Value.vFloat B) = .ok f ↔ sumFloats (f.col "budget") = B) ∧
    (sumFloats (f.col "budget") ≠ B → check_tasks_df f (Value.vFloat B) =
      .error (.budgetMismatch (Value.vFloat (sumFloats (f.col "budget"))) (Value.vFloat B))) ∧
    (sumFloats (f.col "budget") ≠ B →
      Project.init (Value.vStr nm) (Value.vStr ds) (Value.vStr cl) (Value.vFloat B)
        (Value.vStr cur) f workers_df timesheet_df =
      .error (.budgetMismatch (Value.vFloat (sumFloats (f.col "budget"))) (Value.vFloat B))) := by
  have hct : check_tasks_df f (Value.vFloat B) =
      if Value.vFloat (sumFloats (f.col "budget")) = Value.vFloat B then .ok f
      else .error (.budgetMismatch (Value.vFloat (sumFloats (f.col "budget")))
        (Value.vFloat B)) := by
    simp only [check_tasks_df, hdf, hnum]
  by_cases hsb : sumFloats (f.col "budget") = B
  · rw [if_pos (by rw [hsb])] at hct
    exact ⟨⟨fun _ => hsb, fun _ => hct⟩, fun hn => absurd hsb hn, fun hn => absurd hsb hn⟩
  · rw [if_neg (by simp [hsb])] at hct
    refine ⟨⟨fun hok => ?_, fun hs => absurd hs hsb⟩, fun _ => hct, fun _ => ?_⟩
    · rw [hct] at hok
      exact Except.noConfusion hok
    · simp only [Project.init, Bind.bind, Except.bind, check_str, check_pos, if_pos hB, hct]

/-- Tasks table whose budgets sum to 3, for the C2 witness (declared budget 5). -/
def tasksC2 : DataFrame := ⟨["task", "budget"], [[Value.vStr "A", Value.vFloat 3]]⟩

/-- Workers table for the C2 witness. -/
def workersC2 : DataFrame := ⟨["worker", "rate"], [[Value.vStr "w", Value.vFloat 2]]⟩

/-- Witness for C2 at a concrete table with budget sum 3 against a declared
budget of 5. -/
theorem c2_budget_mismatch_witness :
    (check_tasks_df tasksC2 (Value.vFloat 5) = .ok tasksC2 ↔
      sumFloats (tasksC2.col "budget") = 5) ∧
    (sumFloats (tasksC2.col "budget") ≠ 5 → check_tasks_df tasksC2 (Value.vFloat 5) =
      .error (.budgetMismatch (Value.vFloat (sumFloats (tasksC2.col "budget")))
        (Value.vFloat 5))) ∧
    (sumFloats (tasksC2.col "budget") ≠ 5 →
      Project.init (Value.vStr "n") (Value.vStr "d") (Value.vStr "c") (Value.vFloat 5)
        (Value.vStr "u") tasksC2 workersC2 none =
      .error (.budgetMismatch (Value.vFloat (sumFloats (tasksC2.col "budget")))
        (Value.vFloat 5))) :=
  c2_budget_mismatch tasksC2 5 workersC2 none "n" "d" "c" "u" (by decide) (by decide) (by decide)

/-- C3: on a timesheet table passing the generic checks, validation fails with
the unknown-reference error carrying exactly the set difference of timesheet
task names minus table task names when that difference is nonempty — the task
pass runs first, so this holds whatever the worker column contains; when the
task difference is empty, it fails likewise on the worker difference; and it
succeeds when both differences are empty. -/
theorem c3_unknown_references (f tasks_df workers_df : DataFrame)
    (hdf : check_df f ["date", "task", "worker", "duration"] = .ok f)
    (hnum : firstNonFloat (f.col "duration") = none) :
    ((f.col "task").toFinset \ (tasks_df.col "task").toFinset ≠ ∅ →
      check_timesheet_df (some f) tasks_df workers_df =
        .error (.unknownTasks ((f.col "task").toFinset \ (tasks_df.col "task").toFinset))) ∧
    ((f.col "task").toFinset \ (tasks_df.col "task").toFinset = ∅ →
     (f.col "worker").toFinset \ (workers_df.col "worker").toFinset ≠ ∅ →
      check_timesheet_df (some f) tasks_df workers_df =
        .error (.unknownWorkers
          ((f.col "worker").toFinset \ (workers_df.col "worker").toFinset))) ∧
    ((f.col "task").toFinset \ (tasks_df.col "task").toFinset = ∅ →
     (f.col "worker").toFinset \ (workers_df.col "worker").toFinset = ∅ →
      check_timesheet_df (some f) tasks_df workers_df = .ok (some f)) := by
  refine ⟨fun hD => ?_, fun hD hD2 => ?_, fun hD hD2 => ?_⟩
  · simp only [check_timesheet_df, hdf, hnum]
    rw [if_pos hD]
  · simp only [check_timesheet_df, hdf, hnum]
    rw [if_neg (by simp [hD]), if_pos hD2]
  · simp only [check_timesheet_df, hdf, hnum]
    rw [if_neg (by simp [hD]), if_neg (by simp [hD2])]

/-- Timesheet naming a task and a worker absent from the tables, for the C3
witness. -/
def tsC3 : DataFrame :=
  ⟨["date", "task", "worker", "duration"],
   [[Value.vFloat 1, Value.vStr "x", Value.vStr "y", Value.vFloat 2]]⟩

/-- Tasks table for the C3 witness (its only task is named `t`). -/
def tasksC3 : DataFrame := ⟨["task", "budget"], [[Value.vStr "t", Value.vFloat 3]]⟩

/-- Workers table for the C3 witness (its only worker is named `w`). -/
def workersC3 : DataFrame := ⟨["worker", "rate"], [[Value.vStr "w", Value.vFloat 2]]⟩

/-- Witness for C3 at a concrete timesheet whose task and worker are both
unknown: only the task-pass failure can surface. -/
theorem c3_unknown_references_witness :
    ((tsC3.col "task").toFinset \ (tasksC3.col "task").toFinset ≠ ∅ →
      check_timesheet_df (some tsC3) tasksC3 workersC3 =
        .error (.unknownTasks ((tsC3.col "task").toFinset \ (tasksC3.col "task").toFinset))) ∧
    ((tsC3.col "task").toFinset \ (tasksC3.col "task").toFinset = ∅ →
     (tsC3.col "worker").toFinset \ (workersC3.col "worker").toFinset ≠ ∅ →
      check_timesheet_df (some tsC3) tasksC3 workersC3 =
        .error (.unknownWorkers
          ((tsC3.col "worker").toFinset \ (workersC3.col "worker").toFinset))) ∧
    ((tsC3.col "task").toFinset \ (tasksC3.col "task").toFinset = ∅ →
     (tsC3.col "worker").toFinset \ (workersC3.col "worker").toFinset = ∅ →
      check_timesheet_df (some tsC3) tasksC3 workersC3 = .ok (some tsC3)) :=
  c3_unknown_references tsC3 tasksC3 workersC3 (by decide) (by decide)

/-- If `check_str` accepts a value, that value is the string it returns. -/
theorem check_str_ok (v : Value) (s : String) (h : check_str v = .ok s) : v = Value.vStr s := by
  cases v with
  | vStr a => simp only [check_str, Except.ok.injEq] at h; rw [h]
  | vFloat q => simp [check_str] at h
  | vNone => simp [check_str] at h

/-- Tasks table for the C8 scenario (budgets sum to 3). -/
def tasksC8 : DataFrame := ⟨["task", "budget"], [[Value.vStr "t", Value.vFloat 3]]⟩

/-- Workers table for the C8 scenario. -/
def workersC8 : DataFrame := ⟨["worker", "rate"], [[Value.vStr "w", Value.vFloat 2]]⟩

/-- Valid timesheet for the C8 scenario (needed because construction with an
absent timesheet always fails, see C1). -/
def tsC8 : DataFrame :=
  ⟨["date", "task", "worker", "duration"],
   [[Value.vFloat 1, Value.vStr "t", Value.vStr "w", Value.vFloat 4]]⟩

/-- C8 counterexample: `check_str = vt.Schema(str)` only tests
`isinstance(v, str)`, so construction SUCCEEDS with an empty name (and the
constructed project carries the empty string), refuting the claim that
construction fails when a string field is empty. -/
theorem c8_empty_string_accepted :
    Project.init (Value.vStr "") (Value.vStr "d") (Value.vStr "c") (Value.vFloat 3)
      (Value.vStr "NZD") tasksC8 workersC8 (some tsC8) =
      .ok ⟨"", "d", "c", 3, "NZD", tasksC8, workersC8, some tsC8⟩ := by
  with_unfolding_all rfl

/-- C8 amended: in every successfully constructed `Project`, the name,
description, client and currency fields are strings — possibly empty — equal
to the (string) arguments; and construction fails with the type-check error
when one of them is not a string (shown for the name, the first one
checked). -/
theorem c8_fields_are_strings (nm ds cl bdg cur : Value) (t w : DataFrame)
    (tsd : Option DataFrame) :
    (∀ p : Project, Project.init nm ds cl bdg cur t w tsd = .ok p →
      nm = Value.vStr p.name ∧ ds = Value.vStr p.description ∧
      cl = Value.vStr p.client ∧ cur = Value.vStr p.currency) ∧
    ((∀ s, nm ≠ Value.vStr s) → Project.init nm ds cl bdg cur t w tsd = .error .notStr) := by
  constructor
  · intro p h
    simp only [Project.init] at h
    obtain ⟨n, hn, h⟩ := exceptBind_ok _ _ _ h
    obtain ⟨d, hd, h⟩ := exceptBind_ok _ _ _ h
    obtain ⟨c, hc, h⟩ := exceptBind_ok _ _ _ h
    obtain ⟨b, hb, h⟩ := exceptBind_ok _ _ _ h
    obtain ⟨u, hu, h⟩ := exceptBind_ok _ _ _ h
    obtain ⟨tt, htt, h⟩ := exceptBind_ok _ _ _ h
    obtain ⟨ww, hww, h⟩ := exceptBind_ok _ _ _ h
    obtain ⟨tsv, htsv, h⟩ := exceptBind_ok _ _ _ h
    have hp : p = ⟨n, d, c, b, u, tt, ww, tsv⟩ := by
      cases h; rfl
    subst hp
    exact ⟨check_str_ok nm n hn, check_str_ok ds d hd, check_str_ok cl c hc,
      check_str_ok cur u hu⟩
  · intro hns
    cases nm with
    | vStr s => exact absurd rfl (hns s)
    | vFloat q => rfl
    | vNone => rfl

/-- Witness for the amended C8: a non-string name makes construction fail
with the type-check error. -/
theorem c8_fields_are_strings_witness :
    Project.init (Value.vFloat 1) (Value.vStr "d") (Value.vStr "c") (Value.vFloat 3)
      (Value.vStr "u") tasksC8 workersC8 none = .error .notStr :=
  (c8_fields_are_strings (Value.vFloat 1) (Value.vStr "d") (Value.vStr "c") (Value.vFloat 3)
    (Value.vStr "u") tasksC8 workersC8 none).2 (fun _ h => Value.noConfusion h)

/-- C4: on a validated project — duplicate-free task and worker names, every
timesheet entry referencing an existing task and worker — `compute_costs`
returns exactly one cost row per timesheet entry, none dropped and none
duplicated, in the timesheet's insertion order (the rows' entry fields
coincide positionally with the entries), each row costed as its duration
times the matched worker's rate, with `cost/task_budget` the cost divided by
the matched task's budget and `cost/project_budget` the cost divided by the
project budget. -/
theorem c4_compute_costs_rows (p : ProjectT) (ts : List EntryRow)
    (hts : p.timesheet_df = some ts)
    (hT : (p.tasks_df.map TaskRow.task).Nodup)
    (hW : (p.workers_df.map WorkerRow.worker).Nodup)
    (hm : ∀ e ∈ ts, (∃ t ∈ p.tasks_df, t.task = e.task) ∧
                    (∃ w ∈ p.workers_df, w.worker = e.worker)) :
    ∃ rows, compute_costs p = .ok rows ∧ rows.length = ts.length ∧
      rows.map (fun r => (r.date, r.task, r.worker, r.duration))
        = ts.map (fun e => (e.date, e.task, e.worker, e.duration)) ∧
      ∀ r ∈ rows,
        (∀ w ∈ p.workers_df, w.worker = r.worker → r.rate = w.rate) ∧
        (∀ t ∈ p.tasks_df, t.task = r.task → r.task_budget = t.budget) ∧
        r.cost = r.duration * r.rate ∧
        r.costOverTaskBudget = r.cost / r.task_budget ∧
        r.costOverProjectBudget = r.cost / p.budget := by
  obtain ⟨hproj, hprops⟩ := joinRows_spec p hT hW ts hm
  refine ⟨joinRows p ts, by simp [compute_costs, hts], ?_, hproj, hprops⟩
  have h := congrArg List.length hproj
  simpa using h

/-- Concrete validated project for the C4 witness: one task, one worker, one
timesheet entry of 5 hours at rate 3. -/
def projC4 : ProjectT := ⟨2, [⟨"t", 2⟩], [⟨"w", 3⟩], some [⟨0, "t", "w", 5⟩]⟩

/-- Witness for C4 at the concrete one-entry project. -/
theorem c4_compute_costs_rows_witness :
    ∃ rows, compute_costs projC4 = .ok rows ∧
      rows.length = [(⟨0, "t", "w", 5⟩ : EntryRow)].length ∧
      rows.map (fun r => (r.date, r.task, r.worker, r.duration))
        = [(⟨0, "t", "w", 5⟩ : EntryRow)].map (fun e => (e.date, e.task, e.worker, e.duration)) ∧
      ∀ r ∈ rows,
        (∀ w ∈ projC4.workers_df, w.worker = r.worker → r.rate = w.rate) ∧
        (∀ t ∈ projC4.tasks_df, t.task = r.task → r.task_budget = t.budget) ∧
        r.cost = r.duration * r.rate ∧
        r.costOverTaskBudget = r.cost / r.task_budget ∧
        r.costOverProjectBudget = r.cost / projC4.budget :=
  c4_compute_costs_rows projC4 [⟨0, "t", "w", 5⟩] rfl (by decide) (by decide) (by decide)

/-- Project with a present but empty timesheet, for the C5 counterexample.
It is reachable through validation: the source never applies its
`df_nonempty` check, so an empty timesheet table passes `check_timesheet_df`. -/
def projC5 : ProjectT := ⟨1, [⟨"t", 1⟩], [⟨"w", 1⟩], some []⟩

/-- C5 counterexample: on a project with a (present, empty) timesheet,
`summarize` with no grouping keys does not return one aggregate row — the
`group['rate'].iat[0]` access inside `my_agg` raises `IndexError` on the
empty frame. -/
theorem c5_empty_timesheet_indexerror :
    projC5.timesheet_df = some [] ∧
    summarize projC5 false false none = .error .indexError := by
  exact ⟨rfl, by decide⟩

/-- C5 amended: on a validated project with a NONEMPTY timesheet (and, as in
C4, duplicate-free task/worker names with all entries matched), `summarize`
with no grouping keys returns exactly one summary row whose duration is the
sum of all entries' durations, whose cost is the sum of all cost rows' costs,
and whose `cost/project_budget` is that total cost divided by the project
budget. -/
theorem c5_single_row_summary (p : ProjectT) (ts : List EntryRow)
    (hts : p.timesheet_df = some ts) (hne : ts ≠ [])
    (hT : (p.tasks_df.map TaskRow.task).Nodup)
    (hW : (p.workers_df.map WorkerRow.worker).Nodup)
    (hm : ∀ e ∈ ts, (∃ t ∈ p.tasks_df, t.task = e.task) ∧
                    (∃ w ∈ p.workers_df, w.worker = e.worker)) :
    ∃ f, compute_costs p = .ok f ∧
    ∃ r, summarize p false false none = .ok [r] ∧
      r.duration = (ts.map EntryRow.duration).sum ∧
      r.cost = (f.map CostRow.cost).sum ∧
      r.costOverProjectBudget = r.cost / p.budget := by
  obtain ⟨hproj, _⟩ := joinRows_spec p hT hW ts hm
  have hcc : compute_costs p = .ok (joinRows p ts) := by simp [compute_costs, hts]
  have hdur : (joinRows p ts).map CostRow.duration = ts.map EntryRow.duration := by
    have h2 := congrArg (List.map (fun x : Int × String × String × ℚ => x.2.2.2)) hproj
    simpa [List.map_map, Function.comp] using h2
  have hfne : joinRows p ts ≠ [] := by
    intro h0
    apply hne
    have hlen := congrArg List.length hproj
    rw [h0] at hlen
    simp only [List.map_nil, List.length_nil, List.length_map] at hlen
    exact List.length_eq_zero.mp hlen.symm
  obtain ⟨g0, gs, hg⟩ := List.exists_cons_of_ne_nil hfne
  have hagg : my_agg (joinRows p ts) =
      some ⟨((g0 :: gs).map CostRow.duration).sum, g0.rate,
            ((g0 :: gs).map CostRow.cost).sum, g0.task_budget⟩ := by
    rw [hg]; rfl
  refine ⟨joinRows p ts, hcc,
    mkSummaryRow p false false ((none, none, none),
      ⟨((g0 :: gs).map CostRow.duration).sum, g0.rate,
       ((g0 :: gs).map CostRow.cost).sum, g0.task_budget⟩), ?_, ?_, ?_, rfl⟩
  · simp only [summarize, hts, hcc, hagg]
    simp
  · show ((g0 :: gs).map CostRow.duration).sum = (ts.map EntryRow.duration).sum
    rw [← hg, hdur]
  · show ((g0 :: gs).map CostRow.cost).sum = ((joinRows p ts).map CostRow.cost).sum
    rw [hg]

/-- Concrete validated project for the C5 witness. -/
def projC5w : ProjectT := ⟨2, [⟨"s", 2⟩], [⟨"v", 3⟩], some [⟨0, "s", "v", 5⟩]⟩

/-- Witness for the amended C5 at a concrete one-entry project. -/
theorem c5_single_row_summary_witness :
    ∃ f, compute_costs projC5w = .ok f ∧
    ∃ r, summarize projC5w false false none = .ok [r] ∧
      r.duration = ([(⟨0, "s", "v", 5⟩ : EntryRow)].map EntryRow.duration).sum ∧
      r.cost = (f.map CostRow.cost).sum ∧
      r.costOverProjectBudget = r.cost / projC5w.budget :=
  c5_single_row_summary projC5w [⟨0, "s", "v", 5⟩] rfl (by decide) (by decide) (by decide)
    (by decide)

/-- C6: whenever `summarize` returns rows, each row with `by_task` set carries
a `task_budget` column and a `cost/task_budget` column equal to the row's
(group-summed) cost divided by that task budget — re-derived from the summed
cost, which is itself the sum of the costs of the row's group in the joined
table — while with `by_task` unset the `task_budget` and `cost/task_budget`
columns are absent, and with `by_worker` unset the `rate` column is absent. -/
theorem c6_group_ratio_columns (p : ProjectT) (bt bw : Bool) (fr : Option Freq)
    (rows : List SummaryRow) (h : summarize p bt bw fr = .ok rows) :
    ∃ f, compute_costs p = .ok f ∧
      ∀ r ∈ rows,
        (bt = true → ∃ tb, r.task_budget = some tb ∧
          r.costOverTaskBudget = some (r.cost / tb) ∧
          r.cost = ((f.filter (fun c => groupKey bt bw fr c ==
            (r.dateBucket, r.task, r.worker))).map CostRow.cost).sum) ∧
        (bt = false → r.task_budget = none ∧ r.costOverTaskBudget = none) ∧
        (bw = false → r.rate = none) := by
  simp only [summarize] at h
  by_cases hts : p.timesheet_df = none
  · rw [if_pos hts] at h
    exact absurd h (by simp)
  · rw [if_neg hts] at h
    obtain ⟨ts, hts2⟩ := Option.ne_none_iff_exists'.mp hts
    have hcc : compute_costs p = .ok (joinRows p ts) := by simp [compute_costs, hts2]
    rw [hcc] at h
    simp only [] at h
    refine ⟨joinRows p ts, hcc, ?_⟩
    intro r hr
    by_cases hsingle : (fr.isNone && !bt && !bw) = true
    · rw [if_pos hsingle] at h
      have hs := hsingle
      simp only [Bool.and_eq_true, Bool.not_eq_true'] at hs
      obtain ⟨⟨hfr, hbt⟩, hbw⟩ := hs
      cases hma : my_agg (joinRows p ts) with
      | none =>
        rw [hma] at h
        exact absurd h (by simp)
      | some a =>
        rw [hma] at h
        injection h with h2
        subst h2
        have hreq : r = mkSummaryRow p bt bw ((none, none, none), a) :=
          List.mem_singleton.mp hr
        subst hreq
        refine ⟨fun hbtT => ?_, fun _ => ?_, fun _ => ?_⟩
        · rw [hbt] at hbtT
          exact Bool.noConfusion hbtT
        · constructor <;> simp [mkSummaryRow, hbt]
        · simp [mkSummaryRow, hbw]
    · rw [if_neg hsingle] at h
      injection h with h2
      subst h2
      obtain ⟨ka, hka, hrka⟩ := List.mem_map.mp hr
      obtain ⟨k, hk, hkeq⟩ := List.mem_filterMap.mp hka
      obtain ⟨a, hma, hpair⟩ := Option.map_eq_some'.mp hkeq
      subst hrka
      rw [← hpair]
      obtain ⟨k1, k2, k3⟩ := k
      refine ⟨fun hbtT => ?_, fun hbtF => ?_, fun hbwF => ?_⟩
      · refine ⟨a.task_budget, by simp [mkSummaryRow, hbtT], by simp [mkSummaryRow, hbtT], ?_⟩
        simp only [mkSummaryRow]
        cases hg : (joinRows p ts).filter (fun c => groupKey bt bw fr c == (k1, k2, k3)) with
        | nil =>
          rw [hg] at hma
          simp [my_agg] at hma
        | cons g0 gs =>
          rw [hg] at hma
          simp only [my_agg, Option.some.injEq] at hma
          rw [← hma]
      · constructor <;> simp [mkSummaryRow, hbtF]
      · simp [mkSummaryRow, hbwF]

/-- Concrete project for the C6 witness: one task (budget 2), one worker
(rate 3), one entry of 5 hours. -/
def projC6 : ProjectT := ⟨2, [⟨"t", 2⟩], [⟨"w", 3⟩], some [⟨0, "t", "w", 5⟩]⟩

/-- The rows `summarize` returns on `projC6` with `by_task` set: one group
with summed duration 5, summed cost 15, task budget 2, the rate column
dropped, and the ratio columns recomputed from the summed cost. -/
def rowsC6 : List SummaryRow :=
  [⟨none, some "t", none, 5, none, 15, some 2, some (15 / 2), 15 / 2⟩]

/-- Concrete evaluation of `summarize` on `projC6` with `by_task = true`. -/
theorem summarize_projC6_eval : summarize projC6 true false none = .ok rowsC6 := by
  with_unfolding_all rfl

/-- Witness for C6 at the concrete grouped run on `projC6`. -/
theorem c6_group_ratio_columns_witness :
    ∃ f, compute_costs projC6 = .ok f ∧
      ∀ r ∈ rowsC6,
        (true = true → ∃ tb, r.task_budget = some tb ∧
          r.costOverTaskBudget = some (r.cost / tb) ∧
          r.cost = ((f.filter (fun c => groupKey true false none c ==
            (r.dateBucket, r.task, r.worker))).map CostRow.cost).sum) ∧
        (true = false → r.task_budget = none ∧ r.costOverTaskBudget = none) ∧
        (false = false → r.rate = none) :=
  c6_group_ratio_columns projC6 true false none rowsC6 summarize_projC6_eval
